import Mathlib

/-!
Verification development for the civitai-image-generator-mcp repository.

The embedding below translates the `generate_image` tool of `src/index.ts`
(the persisting revision) and of the earlier pass-through revision
(`unnamed/part_000`).  The job-lifecycle controller is the only stateful
part: submission, a bounded polling loop with terminal-state detection, and
result materialization.  Network and file-system collaborators are passed in
explicitly (the status responses as a function from query index to response,
the download step as a fallible function), so every run of the controller is
a pure computation that can be evaluated on concrete inputs.

Simulated time: status queries are instantaneous; the only progression of
the clock is the fixed sleep between polls, exactly as in the spec's
simulated-time test scenarios.
-/

namespace CivitaiMcp

/-- The scheduler enum of the civitai SDK, as referenced by the input schema
(`z.nativeEnum(Scheduler)`); only the default `EULER_A` matters here, the
other constructors stand in for the remaining members of the enum. -/
inductive Scheduler where
  | eulerA
  | euler
  | lcm
  | ddim
  | dpm2
deriving Repr, DecidableEq

/-- The `result` field of a job record in a status response:
`{ available: boolean, blobUrl?: string }`. -/
structure JobResult where
  available : Bool
  blobUrl : Option String
deriving Repr, DecidableEq

/-- A job record in a status response: `{ scheduled: boolean, result?: ... }`. -/
structure Job where
  scheduled : Bool
  result : Option JobResult
deriving Repr, DecidableEq

/-- A status response from `civitai.jobs.getByToken`; the `jobs` array may be
missing altogether (`statusResponse?.jobs` in the source). -/
structure StatusResponse where
  jobs : Option (List Job)
deriving Repr, DecidableEq

/-- The first job record, `statusResponse?.jobs?.[0]` (src/index.ts line 134). -/
def StatusResponse.firstJob (r : StatusResponse) : Option Job :=
  r.jobs.bind List.head?

/-- What one status query does from the caller's point of view: either
`getByToken` raises a transport/parse error, or it returns a response. -/
inductive PollEvent where
  | raise (msg : String)
  | respond (r : StatusResponse)
deriving Repr, DecidableEq

/-- The exit points of the `generate_image` callback, one constructor per
return/throw site of the source:
* `completed` — persisting revision, `return {path: localPath}` (line 146);
* `completedRemote` — pass-through revision, `return "Image generated: url"`
  (part_000 line 127);
* `submissionError` — the submission catch returns an `isError` result
  (lines 110-118); carries the raw JS `error.message` and the optional
  stringified `error.response.data`;
* `pollingError` — the poll catch returns an `isError` result (lines 174-179);
* `inconsistentResult` — `throw McpError` at line 155;
* `jobFailed` — `throw McpError` at line 160;
* `downloadFailed` — `throw McpError` at line 150;
* `timedOut` — `throw McpError` at line 186. -/
inductive GenOutcome where
  | completed (localPath : String)
  | completedRemote (url : String)
  | submissionError (msg : String) (details : Option String)
  | pollingError (msg : String)
  | inconsistentResult
  | jobFailed
  | downloadFailed (url : String) (msg : String)
  | timedOut
deriving Repr, DecidableEq

/-- Whether an outcome is the success exit of its revision. -/
def GenOutcome.isSuccess : GenOutcome → Bool
  | .completed _ => true
  | .completedRemote _ => true
  | _ => false

/-- Result of classifying one poll iteration: either the loop ends with an
outcome, or the job is still pending and the loop sleeps and repeats. -/
inductive StepResult where
  | finish (o : GenOutcome)
  | pending
deriving Repr, DecidableEq

/-- One iteration of the polling loop body (src/index.ts lines 129-180),
without the timing.  `onUrl` is what the branch with an available result and
a truthy `blobUrl` does — the persisting revision downloads, the pass-through
revision returns the URL.  JS truthiness is modelled exactly: a `blobUrl`
that is the empty string is falsy, so it falls into the missing-URL branch. -/
def pollStep (onUrl : String → GenOutcome) : PollEvent → StepResult
  | .raise msg => .finish (.pollingError msg)
  | .respond r =>
    match r.firstJob with
    | none => .pending
    | some job =>
      match job.result with
      | some jr =>
        if jr.available then
          match jr.blobUrl with
          | some url => if url = "" then .finish .inconsistentResult else .finish (onUrl url)
          | none => .finish .inconsistentResult
        else if job.scheduled then .pending else .finish .jobFailed
      | none => if job.scheduled then .pending else .finish .jobFailed

/-- The fixed poll interval, `const pollIntervalMs = 2000` (src/index.ts line 124). -/
def pollIntervalMs : Nat := 2000

/-- The deadline, `const timeoutMs = 2 * 60 * 1000` (src/index.ts line 125). -/
def timeoutMs : Nat := 120000

/-- Result of a run of the controller: the outcome, the number of status
queries issued, and the simulated elapsed milliseconds at termination. -/
structure PollRun where
  outcome : GenOutcome
  queries : Nat
  elapsed : Nat
deriving Repr, DecidableEq

/-- The polling loop (src/index.ts lines 128-186): while the elapsed time is
below the deadline, issue a status query, classify it, and either finish or
sleep for the fixed interval and repeat; once the deadline check fails the
loop exits with the timeout error.  The deadline `timeoutLimit` is the
`PollingPolicy` deadline (the source hardcodes `timeoutMs`; the spec's test
instance uses 5 seconds).  `t` is the simulated time since submission and
`q` the number of queries already issued. -/
def pollLoop (onUrl : String → GenOutcome) (env : Nat → PollEvent)
    (timeoutLimit : Nat) (t q : Nat) : PollRun :=
  if _h : t < timeoutLimit then
    match pollStep onUrl (env q) with
    | .finish o => ⟨o, q + 1, t⟩
    | .pending => pollLoop onUrl env timeoutLimit (t + pollIntervalMs) (q + 1)
  else ⟨.timedOut, q, t⟩
termination_by timeoutLimit - t
decreasing_by simp [pollIntervalMs]; omega

/-- The submission response of `civitai.image.fromText`; the `token` field
may be absent (`initialResponse?.token`). -/
structure SubmitResponse where
  token : Option String
deriving Repr, DecidableEq

/-- What the submission call does: either it raises (transport/HTTP error,
with `error.message` and optionally a stringified `error.response.data`), or
it returns a response. -/
inductive SubmitEvent where
  | raise (msg : String) (details : Option String)
  | respond (r : SubmitResponse)
deriving Repr, DecidableEq

/-- The numeric value of `ErrorCode.InternalError` in the MCP SDK. -/
def internalErrorCode : Int := -32603

/-- An MCP protocol error value (`McpError` of the SDK): a code and a message. -/
structure McpError where
  code : Int
  message : String
deriving Repr, DecidableEq

/-- The `McpError` thrown when submission returns no token
(src/index.ts line 107). -/
def noTokenError : McpError := ⟨internalErrorCode,
  "Civitai job submission did not return a token."⟩

/-- Modelled from the spec: the JS `message` property of a thrown `McpError`
as set by the MCP SDK, `"MCP error <code>: <message>"`; the SDK itself is an
external collaborator (ToolHost side), not part of src/. -/
def McpError.jsMessage (e : McpError) : String :=
  "MCP error " ++ toString e.code ++ ": " ++ e.message

/-- The branch taken when the result is available with a truthy URL in the
persisting revision (src/index.ts lines 141-151): download and save the
image, returning the local path, or fail with the download error. -/
def persistOnUrl (download : String → Except String String) (url : String) : GenOutcome :=
  match download url with
  | .ok p => .completed p
  | .error m => .downloadFailed url m

/-- The whole `generate_image` callback after validation, parameterized by
the completed-branch handler `onUrl` (which is the only point where the two
revisions differ): the submission phase (src/index.ts lines 98-121) followed
by the polling loop.  A raised submission error is caught and returned as an
error result; a missing or falsy token throws the no-token `McpError` inside
the same `try`, so it is caught by the same catch and its JS message becomes
the error text; in both cases zero status queries are issued. -/
def runGenerate (onUrl : String → GenOutcome) (submit : SubmitEvent)
    (env : Nat → PollEvent) : PollRun :=
  match submit with
  | .raise msg details => ⟨.submissionError msg details, 0, 0⟩
  | .respond r =>
    match r.token with
    | none => ⟨.submissionError noTokenError.jsMessage none, 0, 0⟩
    | some tok =>
      if tok = "" then ⟨.submissionError noTokenError.jsMessage none, 0, 0⟩
      else pollLoop onUrl env timeoutMs 0 0

/-- The persisting revision's `generate_image` operation (src/index.ts). -/
def generateImage (submit : SubmitEvent) (env : Nat → PollEvent)
    (download : String → Except String String) : PollRun :=
  runGenerate (persistOnUrl download) submit env

/-- The pass-through revision's `generate_image` operation (unnamed/part_000):
identical except that the completed branch returns the remote URL directly. -/
def generateImagePassthrough (submit : SubmitEvent) (env : Nat → PollEvent) : PollRun :=
  runGenerate GenOutcome.completedRemote submit env

/-- A response event whose first job is still scheduled. -/
def scheduledEvent : PollEvent := .respond ⟨some [⟨true, none⟩]⟩

/-- A response event whose first job completed with the given result URL. -/
def completedEvent (url : String) : PollEvent :=
  .respond ⟨some [⟨false, some ⟨true, some url⟩⟩]⟩

/-- A response event whose first job is available but carries no URL. -/
def availableNoUrlEvent : PollEvent :=
  .respond ⟨some [⟨false, some ⟨true, none⟩⟩]⟩

/-- An environment that answers the first queries from a list and every later
query with the given default event. -/
def envOfList (l : List PollEvent) (d : PollEvent) : Nat → PollEvent :=
  fun n => l.getD n d

/-- Escaping of one character as JSON.stringify performs it for the
characters that can occur in the strings this model handles. -/
def jsonEscapeChar (c : Char) : String :=
  if c = '\\' then "\\\\"
  else if c = '"' then "\\\""
  else if c = '\n' then "\\n"
  else if c = '\r' then "\\r"
  else if c = '\t' then "\\t"
  else String.singleton c

/-- The JSON string literal for `s` as JSON.stringify produces it. -/
def jsonString (s : String) : String :=
  "\"" ++ String.join (s.data.map jsonEscapeChar) ++ "\""

/-- The wire-level result of a tool call: the text of the single content
item and the `isError` flag (absent flag modelled as `false`). -/
structure ToolResult where
  text : String
  isError : Bool
deriving Repr, DecidableEq

/-- JS `msg || dflt`: the empty string is falsy, so it is replaced by the
default. -/
def orDefaultMsg (msg dflt : String) : String :=
  if msg = "" then dflt else msg

/-- The ` (details)` suffix appended by the submission catch when
`error.response.data` is present and its stringification is truthy
(src/index.ts lines 113-115). -/
def detailSuffix : Option String → String
  | none => ""
  | some d => if d = "" then "" else " (" ++ d ++ ")"

/-- What the callback hands to the tool host for each exit point: either a
returned result object (`Except.ok`) or a thrown `McpError` (`Except.error`),
with the exact texts built by the source:
* `completed` — `JSON.stringify({path: localPath})` (line 146);
* `completedRemote` — `` `Image generated: ${url}` `` (part_000 line 127);
* `submissionError` — `` `Civitai API Error: ...` `` with the message
  defaulted when falsy and the response detail appended (lines 112-115);
* `pollingError` — `` `Polling Error: ...` `` (lines 175-177);
* the four thrown `McpError`s with their messages (lines 150, 155, 160, 186;
  `timeoutMs / 1000 = 120`). -/
def renderOutcome : GenOutcome → Except McpError ToolResult
  | .completed p => .ok ⟨"\x7b\"path\":" ++ jsonString p ++ "\x7d", false⟩
  | .completedRemote url => .ok ⟨"Image generated: " ++ url, false⟩
  | .submissionError msg details =>
      .ok ⟨"Civitai API Error: " ++
            orDefaultMsg msg "Unknown error submitting job to Civitai API" ++
            detailSuffix details, true⟩
  | .pollingError msg =>
      .ok ⟨"Polling Error: " ++
            orDefaultMsg msg "Unknown error during job status polling", true⟩
  | .inconsistentResult =>
      .error ⟨internalErrorCode,
        "Civitai job completed but the result did not contain an image URL."⟩
  | .jobFailed =>
      .error ⟨internalErrorCode,
        "Civitai job failed or finished without an available result."⟩
  | .downloadFailed url msg =>
      .error ⟨internalErrorCode,
        "Failed to download or save image from " ++ url ++ ": " ++ msg⟩
  | .timedOut =>
      .error ⟨internalErrorCode,
        "Polling timed out: Civitai job did not complete within the 120 second limit."⟩

/-- Modelled from the spec: the ToolHost (the MCP SDK surrounding the
callback, not part of src/) catches any `McpError` thrown by the callback
and converts it into a structured error result, so "the capability never
throws uncaught — all failures resolve to a structured error result" (§6). -/
def hostDispatch : Except McpError ToolResult → ToolResult
  | .ok r => r
  | .error e => ⟨e.jsMessage, true⟩

/-- The final wire result of a callback run. -/
def finalResult (o : GenOutcome) : ToolResult :=
  hostDispatch (renderOutcome o)

/-- The `{remoteUrl: string}` success shape asserted by the spec (§6, §4.4),
rendered the way the source renders its own `{path: string}` shape, namely
as `JSON.stringify` output.  This definition follows the spec's words, for
comparison against what the code actually returns. -/
def specRemoteUrlResultText (url : String) : String :=
  "\x7b\"remoteUrl\":" ++ jsonString url ++ "\x7d"

/-! ### Input validation (the zod schema, src/index.ts lines 63-76) -/

/-- The raw request as the host receives it: each optional field either
absent or carrying a value of its declared type.  `prompt` has no default,
the others do. -/
structure RawInput where
  prompt : Option String
  negativePrompt : Option String
  scheduler : Option Scheduler
  steps : Option Int
  cfgScale : Option Rat
  width : Option Int
  height : Option Int
  seed : Option Int
  clipSkip : Option Int
deriving Repr, DecidableEq

/-- A validated request with all defaults applied. -/
structure GenerateImageParams where
  prompt : String
  negativePrompt : Option String
  scheduler : Scheduler
  steps : Int
  cfgScale : Rat
  width : Int
  height : Int
  seed : Option Int
  clipSkip : Int
deriving Repr, DecidableEq

/-- The zod input schema of `generate_image` (src/index.ts lines 63-76):
`prompt: z.string()` (required, but with no non-emptiness constraint),
`steps: int 1-100 default 20`, `cfgScale: number 1-30 default 7`,
`width/height: int 64-1024 multipleOf 8 defaults 512/768`, `seed: int
optional`, `clipSkip: int 1-10 default 2`, `scheduler` defaulting to
`EULER_A`.  Out-of-range values are rejected, never clamped.  (zod reports
all offending fields; this model returns the first, which does not affect
acceptance.) -/
def validateGenerateImageInput (raw : RawInput) : Except String GenerateImageParams :=
  match raw.prompt with
  | none => .error "prompt: Required"
  | some p =>
    if ¬ (1 ≤ raw.steps.getD 20 ∧ raw.steps.getD 20 ≤ 100) then
      .error "steps: must be between 1 and 100"
    else if ¬ (1 ≤ raw.cfgScale.getD 7 ∧ raw.cfgScale.getD 7 ≤ 30) then
      .error "cfgScale: must be between 1 and 30"
    else if ¬ (64 ≤ raw.width.getD 512 ∧ raw.width.getD 512 ≤ 1024 ∧
               raw.width.getD 512 % 8 = 0) then
      .error "width: must be 64-1024 and a multiple of 8"
    else if ¬ (64 ≤ raw.height.getD 768 ∧ raw.height.getD 768 ≤ 1024 ∧
               raw.height.getD 768 % 8 = 0) then
      .error "height: must be 64-1024 and a multiple of 8"
    else if ¬ (1 ≤ raw.clipSkip.getD 2 ∧ raw.clipSkip.getD 2 ≤ 10) then
      .error "clipSkip: must be between 1 and 10"
    else
      .ok ⟨p, raw.negativePrompt, raw.scheduler.getD .eulerA, raw.steps.getD 20,
           raw.cfgScale.getD 7, raw.width.getD 512, raw.height.getD 768,
           raw.seed, raw.clipSkip.getD 2⟩

/-- Whether a fallible computation succeeded. -/
def exceptOk : Except String GenerateImageParams → Bool
  | .ok _ => true
  | .error _ => false

/-- A full tool-call run: the wire result plus how many submission calls and
how many status queries were made. -/
structure ToolCallRun where
  result : ToolResult
  submitCalls : Nat
  pollCalls : Nat
deriving Repr, DecidableEq

/-- The whole tool call of the persisting revision: the host validates the
raw input against the zod schema before the callback runs (modelled from the
spec for the host side: a validation failure is reported to the caller and
the callback — hence any network activity — never starts); on success the
callback submits once and polls. -/
def handleGenerateImage (raw : RawInput) (submit : SubmitEvent)
    (env : Nat → PollEvent) (download : String → Except String String) : ToolCallRun :=
  match validateGenerateImageInput raw with
  | .error e => ⟨⟨"Invalid arguments: " ++ e, true⟩, 0, 0⟩
  | .ok _ =>
    let r := generateImage submit env download
    ⟨finalResult r.outcome, 1, r.queries⟩

/-! ### Result materialization (src/index.ts lines 191-210) -/

/-- Abstract file-system state: the set of existing directories. -/
structure FsState where
  dirs : List String
deriving Repr, DecidableEq

/-- Modelled from the spec: Node's `fs.promises.mkdir`.  With
`recursive: true` (what the source passes, line 197) creating a directory
that already exists succeeds as a no-op; with `recursive: false` it fails
with `EEXIST` (§4.4: "creating a directory that already exists is a no-op,
not an error"). -/
def mkdirFs (rec : Bool) (d : String) (fs : FsState) : Except String FsState :=
  if d ∈ fs.dirs then
    if rec then .ok fs else .error "EEXIST"
  else .ok ⟨d :: fs.dirs⟩

/-- The `ensureDirectoryExists` helper (src/index.ts lines 192-199): probe with
`access`; if the probe fails (directory absent) fall into the catch and
`mkdir` with `recursive: true`. -/
def ensureDirectoryExists (d : String) (fs : FsState) : Except String FsState :=
  if d ∈ fs.dirs then .ok fs
  else mkdirFs true d fs

/-- The per-operation control state of one `ensureDirectoryExists` call,
split at its suspension point so that two calls can interleave: the call has
not probed yet, has probed and found the directory missing, or is finished
(with the error it raised, if any). -/
inductive EnsurePhase where
  | start
  | needMkdir
  | finished (err : Option String)
deriving Repr, DecidableEq

/-- One step of an in-flight `ensureDirectoryExists` call against the shared
file system. -/
def ensureStep (d : String) (fs : FsState) : EnsurePhase → FsState × EnsurePhase
  | .start => if d ∈ fs.dirs then (fs, .finished none) else (fs, .needMkdir)
  | .needMkdir =>
      match mkdirFs true d fs with
      | .ok fs' => (fs', .finished none)
      | .error e => (fs, .finished (some e))
  | .finished e => (fs, .finished e)

/-- Run two concurrent `ensureDirectoryExists` calls for the same path under
an arbitrary interleaving: each schedule entry says which of the two calls
takes its next step. -/
def runEnsurePair (d : String) :
    List Bool → FsState × EnsurePhase × EnsurePhase → FsState × EnsurePhase × EnsurePhase
  | [], s => s
  | b :: rest, (fs, p1, p2) =>
      if b then
        let s1 := ensureStep d fs p1
        runEnsurePair d rest (s1.1, s1.2, p2)
      else
        let s2 := ensureStep d fs p2
        runEnsurePair d rest (s2.1, p1, s2.2)

/-- Whether an in-flight call has finished by raising an error. -/
def raised : EnsurePhase → Bool
  | .finished (some _) => true
  | _ => false

/-- Model of `path.join` for a directory without a trailing separator. -/
def pathJoin (a b : String) : String := a ++ "/" ++ b

/-- The filename chosen for a downloaded image (src/index.ts line 206):
`` `civitai_${randomUUID()}.png` ``; the UUID is an input here, its
freshness across calls being the collaborator's contract. -/
def imageFilename (uuid : String) : String := "civitai_" ++ uuid ++ ".png"

/-- The local path a materialization writes to (src/index.ts line 207). -/
def savedImagePath (outputDir uuid : String) : String :=
  pathJoin outputDir (imageFilename uuid)

/-! ### Unfolding lemmas for the polling loop -/

theorem pollLoop_deadline (onUrl env T t q) (hT : ¬ t < T) :
    pollLoop onUrl env T t q = ⟨.timedOut, q, t⟩ := by
  rw [pollLoop]
  simp [hT]

theorem pollLoop_finish (onUrl env T t q o) (hT : t < T)
    (hs : pollStep onUrl (env q) = .finish o) :
    pollLoop onUrl env T t q = ⟨o, q + 1, t⟩ := by
  rw [pollLoop]
  simp [hT, hs]

theorem pollLoop_pending (onUrl env T t q) (hT : t < T)
    (hs : pollStep onUrl (env q) = .pending) :
    pollLoop onUrl env T t q = pollLoop onUrl env T (t + pollIntervalMs) (q + 1) := by
  rw [pollLoop]
  simp [hT, hs]

/-- The query counter of the loop never decreases. -/
theorem pollLoop_queries_ge (onUrl env) (T t q : Nat) :
    q ≤ (pollLoop onUrl env T t q).queries := by
  rw [pollLoop]
  split
  · split
    · simp
    · have := pollLoop_queries_ge onUrl env T (t + pollIntervalMs) (q + 1)
      omega
  · simp
termination_by T - t
decreasing_by simp [pollIntervalMs]; omega

/-- Every status query is issued strictly before the deadline: either the
loop issued no further query at all, or the simulated instant of the last
query it issued is below the deadline. -/
theorem pollLoop_last_query_before_deadline (onUrl env) (T t q : Nat) :
    (pollLoop onUrl env T t q).queries = q ∨
      t + ((pollLoop onUrl env T t q).queries - q - 1) * pollIntervalMs < T := by
  rw [pollLoop]
  split
  · rename_i hT
    split
    · right
      have hz : q + 1 - q - 1 = 0 := by omega
      simpa [hz] using hT
    · have hge := pollLoop_queries_ge onUrl env T (t + pollIntervalMs) (q + 1)
      have hrec := pollLoop_last_query_before_deadline onUrl env T (t + pollIntervalMs) (q + 1)
      right
      have hI : pollIntervalMs = 2000 := rfl
      rw [hI] at hge hrec ⊢
      rcases hrec with h1 | h2
      · rw [h1]
        have hz : q + 1 - q - 1 = 0 := by omega
        simpa [hz] using hT
      · omega
  · simp
termination_by T - t
decreasing_by simp [pollIntervalMs]; omega

/-- A run whose every query classifies as still-pending can only end at the
deadline. -/
theorem pollLoop_allPending_timedOut (onUrl env)
    (h : ∀ n, pollStep onUrl (env n) = .pending) (T t q : Nat) :
    (pollLoop onUrl env T t q).outcome = .timedOut := by
  rw [pollLoop]
  split
  · rw [h q]
    exact pollLoop_allPending_timedOut onUrl env h T (t + pollIntervalMs) (q + 1)
  · rfl
termination_by T - t
decreasing_by simp [pollIntervalMs]; omega

/-- A response whose first job is still scheduled classifies as pending. -/
theorem pollStep_scheduledEvent (onUrl : String → GenOutcome) :
    pollStep onUrl scheduledEvent = .pending := rfl

/-- A response whose first job is available with a truthy URL finishes with
the completed-branch handler applied to that URL. -/
theorem pollStep_completedEvent (onUrl : String → GenOutcome) (url : String)
    (h : url ≠ "") : pollStep onUrl (completedEvent url) = .finish (onUrl url) := by
  simp [pollStep, completedEvent, StatusResponse.firstJob, h]

/-! ### Claims -/

/-- C1: with the spec's instance of the polling policy (interval 2 s,
deadline 5 s), a poll sequence that never yields a terminal classification
ends in the timeout error after exactly 3 status queries, issued at
simulated times 0, 2000 and 4000 ms, and no 4th query is issued at 6000 ms
(the run exits at elapsed 6000 with the deadline check, not a query);
a terminal classification returned by the query issued at 4000 ms is
honored even though the run is about to cross the deadline; and in general
every query the loop issues happens at an instant strictly before the
deadline. -/
theorem claim1_deadline_discipline :
    (∀ (onUrl : String → GenOutcome) (env : Nat → PollEvent),
        (∀ n, pollStep onUrl (env n) = .pending) →
        pollLoop onUrl env 5000 0 0 = ⟨.timedOut, 3, 6000⟩) ∧
    (∀ (onUrl : String → GenOutcome) (env : Nat → PollEvent) (o : GenOutcome),
        pollStep onUrl (env 0) = .pending →
        pollStep onUrl (env 1) = .pending →
        pollStep onUrl (env 2) = .finish o →
        pollLoop onUrl env 5000 0 0 = ⟨o, 3, 4000⟩) ∧
    (∀ (onUrl : String → GenOutcome) (env : Nat → PollEvent) (T : Nat),
        (pollLoop onUrl env T 0 0).queries = 0 ∨
          ((pollLoop onUrl env T 0 0).queries - 1) * pollIntervalMs < T) := by
  refine ⟨?_, ?_, ?_⟩
  · intro onUrl env h
    rw [pollLoop_pending onUrl env 5000 0 0 (by norm_num) (h 0),
        pollLoop_pending onUrl env 5000 _ _ (by norm_num [pollIntervalMs]) (h 1),
        pollLoop_pending onUrl env 5000 _ _ (by norm_num [pollIntervalMs]) (h 2),
        pollLoop_deadline onUrl env 5000 _ _ (by norm_num [pollIntervalMs])]
    norm_num [pollIntervalMs]
  · intro onUrl env o h0 h1 h2
    rw [pollLoop_pending onUrl env 5000 0 0 (by norm_num) h0,
        pollLoop_pending onUrl env 5000 _ _ (by norm_num [pollIntervalMs]) h1,
        pollLoop_finish onUrl env 5000 _ _ o (by norm_num [pollIntervalMs]) h2]
    norm_num [pollIntervalMs]
  · intro onUrl env T
    have := pollLoop_last_query_before_deadline onUrl env T 0 0
    simpa using this

/-- Witness for C1 at a concrete never-terminal environment. -/
theorem claim1_deadline_discipline_witness :
    pollLoop (persistOnUrl fun u => .ok u) (fun _ => scheduledEvent) 5000 0 0
      = ⟨.timedOut, 3, 6000⟩ :=
  claim1_deadline_discipline.1 _ _ (fun _ => rfl)

/-- C2: for the poll sequence [Scheduled, Scheduled, Completed(url)] with a
2 s interval and the code's 120 s deadline, the operation succeeds after
exactly 3 status queries with simulated elapsed time 2×interval (which is
below the deadline); the persisting revision hands exactly the supplied URL
to the download step and returns the local path the download produced, and
the pass-through revision returns exactly the supplied URL. -/
theorem claim2_completed_roundtrip :
    ∀ (url tok p : String) (download : String → Except String String) (d : PollEvent),
      url ≠ "" → tok ≠ "" → download url = .ok p →
      generateImage (.respond ⟨some tok⟩)
          (envOfList [scheduledEvent, scheduledEvent, completedEvent url] d) download
        = ⟨.completed p, 3, 2 * pollIntervalMs⟩ ∧
      generateImagePassthrough (.respond ⟨some tok⟩)
          (envOfList [scheduledEvent, scheduledEvent, completedEvent url] d)
        = ⟨.completedRemote url, 3, 2 * pollIntervalMs⟩ ∧
      2 * pollIntervalMs < timeoutMs := by
  intro url tok p download d hurl htok hdl
  have henv0 : envOfList [scheduledEvent, scheduledEvent, completedEvent url] d 0
      = scheduledEvent := rfl
  have henv1 : envOfList [scheduledEvent, scheduledEvent, completedEvent url] d 1
      = scheduledEvent := rfl
  have henv2 : envOfList [scheduledEvent, scheduledEvent, completedEvent url] d 2
      = completedEvent url := rfl
  refine ⟨?_, ?_, by norm_num [pollIntervalMs, timeoutMs]⟩
  · show runGenerate (persistOnUrl download) (.respond ⟨some tok⟩) _ = _
    rw [runGenerate]
    simp only [htok, if_neg htok]
    rw [pollLoop_pending _ _ _ 0 0 (by norm_num [timeoutMs])
          (by rw [henv0]; exact pollStep_scheduledEvent _),
        pollLoop_pending _ _ _ _ _ (by norm_num [timeoutMs, pollIntervalMs])
          (by rw [henv1]; exact pollStep_scheduledEvent _),
        pollLoop_finish _ _ _ _ _ _ (by norm_num [timeoutMs, pollIntervalMs])
          (by rw [henv2]; exact pollStep_completedEvent _ url hurl)]
    simp [persistOnUrl, hdl, pollIntervalMs]
  · show runGenerate GenOutcome.completedRemote (.respond ⟨some tok⟩) _ = _
    rw [runGenerate]
    simp only [htok, if_neg htok]
    rw [pollLoop_pending _ _ _ 0 0 (by norm_num [timeoutMs])
          (by rw [henv0]; exact pollStep_scheduledEvent _),
        pollLoop_pending _ _ _ _ _ (by norm_num [timeoutMs, pollIntervalMs])
          (by rw [henv1]; exact pollStep_scheduledEvent _),
        pollLoop_finish _ _ _ _ _ _ (by norm_num [timeoutMs, pollIntervalMs])
          (by rw [henv2]; exact pollStep_completedEvent _ url hurl)]
    simp [pollIntervalMs]

/-- Witness for C2 at the spec's concrete poll sequence. -/
theorem claim2_completed_roundtrip_witness :
    generateImage (.respond ⟨some "tok"⟩)
        (envOfList [scheduledEvent, scheduledEvent, completedEvent "https://x/img.png"]
          scheduledEvent)
        (fun u => .ok ("/out/" ++ u))
      = ⟨.completed "/out/https://x/img.png", 3, 2 * pollIntervalMs⟩ ∧
    generateImagePassthrough (.respond ⟨some "tok"⟩)
        (envOfList [scheduledEvent, scheduledEvent, completedEvent "https://x/img.png"]
          scheduledEvent)
      = ⟨.completedRemote "https://x/img.png", 3, 2 * pollIntervalMs⟩ ∧
    2 * pollIntervalMs < timeoutMs :=
  claim2_completed_roundtrip "https://x/img.png" "tok" "/out/https://x/img.png"
    (fun u => .ok ("/out/" ++ u)) scheduledEvent (by decide) (by decide) rfl

/-- C3: no error kind escapes the operation: rendering any non-success exit
point through the tool host yields a structured failure result (the
`isError` marker set), never an uncaught exception; for a submission failure
with upstream response detail, the detail is appended to the human-readable
message; and on every run of the operation the final wire result's error
flag is set exactly when the outcome is not the success exit. -/
theorem claim3_structured_failures :
    (∀ o : GenOutcome, (finalResult o).isError = !o.isSuccess) ∧
    (∀ msg d : String, msg ≠ "" → d ≠ "" →
        finalResult (.submissionError msg (some d))
          = ⟨"Civitai API Error: " ++ msg ++ " (" ++ d ++ ")", true⟩) ∧
    (∀ (submit : SubmitEvent) (env : Nat → PollEvent)
        (download : String → Except String String),
        (finalResult (generateImage submit env download).outcome).isError
          = !(generateImage submit env download).outcome.isSuccess) := by
  refine ⟨?_, ?_, ?_⟩
  · intro o
    cases o <;> simp [finalResult, renderOutcome, hostDispatch, GenOutcome.isSuccess]
  · intro msg d hm hd
    simp [finalResult, renderOutcome, hostDispatch, orDefaultMsg, detailSuffix, hm, hd,
      String.append_assoc]
  · intro submit env download
    cases h : (generateImage submit env download).outcome <;>
      simp [finalResult, renderOutcome, hostDispatch, GenOutcome.isSuccess]

/-- Witness for C3 at a concrete submission failure with response detail. -/
theorem claim3_structured_failures_witness :
    finalResult (.submissionError "Request failed with status code 401" (some "detail"))
      = ⟨"Civitai API Error: Request failed with status code 401 (detail)", true⟩ :=
  claim3_structured_failures.2.1 "Request failed with status code 401" "detail"
    (by decide) (by decide)

/-- C4: a status reading whose first job is available but carries no result
URL (absent, or present but empty and hence falsy) classifies as the
inconsistent-result defect, the loop ends at that very query with no
further status queries, and this exit is distinct from the job-failure
classification both as an exit point and in what reaches the host. -/
theorem claim4_inconsistent_immediate :
    (∀ onUrl : String → GenOutcome,
        pollStep onUrl availableNoUrlEvent = .finish .inconsistentResult ∧
        pollStep onUrl (.respond ⟨some [⟨false, some ⟨true, some ""⟩⟩]⟩)
          = .finish .inconsistentResult) ∧
    (∀ (onUrl : String → GenOutcome) (env : Nat → PollEvent) (T t q : Nat),
        t < T → pollStep onUrl (env q) = .finish .inconsistentResult →
        pollLoop onUrl env T t q = ⟨.inconsistentResult, q + 1, t⟩) ∧
    (GenOutcome.inconsistentResult ≠ GenOutcome.jobFailed ∧
      renderOutcome .inconsistentResult ≠ renderOutcome .jobFailed) := by
  refine ⟨fun onUrl => ⟨rfl, rfl⟩, ?_, by decide, by simp [renderOutcome]⟩
  intro onUrl env T t q hT hs
  exact pollLoop_finish onUrl env T t q _ hT hs

/-- Witness for C4 at a concrete available-without-URL reading. -/
theorem claim4_inconsistent_immediate_witness :
    pollLoop (persistOnUrl fun u => .ok u) (fun _ => availableNoUrlEvent)
        timeoutMs 0 0 = ⟨.inconsistentResult, 1, 0⟩ :=
  claim4_inconsistent_immediate.2.1 _ _ timeoutMs 0 0 (by norm_num [timeoutMs])
    (claim4_inconsistent_immediate.1 _).1

/-- C5: a submission call that completes without raising but returns no job
token (the field absent, or present but empty and hence falsy) makes the
operation fail through the submission catch with the no-token error, and
zero status-poll queries are issued. -/
theorem claim5_no_token :
    ∀ (env : Nat → PollEvent) (download : String → Except String String),
      generateImage (.respond ⟨none⟩) env download
        = ⟨.submissionError noTokenError.jsMessage none, 0, 0⟩ ∧
      generateImage (.respond ⟨some ""⟩) env download
        = ⟨.submissionError noTokenError.jsMessage none, 0, 0⟩ ∧
      (finalResult (generateImage (.respond ⟨none⟩) env download).outcome).isError
        = true :=
  fun _ _ => ⟨rfl, rfl, rfl⟩

/-- C6: a transport/parse error raised while querying job status ends the
loop at that very query with the polling-error exit — no retry within the
remaining deadline budget — and this exit is distinct from the job-failure
and timeout exits, both as a constructor and in what reaches the host (it
is a returned error result, not a thrown `McpError`). -/
theorem claim6_polling_error :
    (∀ (onUrl : String → GenOutcome) (msg : String),
        pollStep onUrl (.raise msg) = .finish (.pollingError msg)) ∧
    (∀ (onUrl : String → GenOutcome) (env : Nat → PollEvent) (T t q : Nat)
        (msg : String),
        t < T → env q = .raise msg →
        pollLoop onUrl env T t q = ⟨.pollingError msg, q + 1, t⟩) ∧
    (∀ msg : String,
        GenOutcome.pollingError msg ≠ GenOutcome.jobFailed ∧
        GenOutcome.pollingError msg ≠ GenOutcome.timedOut ∧
        renderOutcome (.pollingError msg) ≠ renderOutcome .jobFailed ∧
        renderOutcome (.pollingError msg) ≠ renderOutcome .timedOut) := by
  refine ⟨fun _ _ => rfl, ?_, ?_⟩
  · intro onUrl env T t q msg hT he
    exact pollLoop_finish onUrl env T t q _ hT (by rw [he]; rfl)
  · intro msg
    refine ⟨by simp, by simp, by simp [renderOutcome], by simp [renderOutcome]⟩

/-- Witness for C6 at a concrete raising environment. -/
theorem claim6_polling_error_witness :
    pollLoop (persistOnUrl fun u => .ok u) (fun _ => .raise "socket hang up")
        timeoutMs 0 0 = ⟨.pollingError "socket hang up", 1, 0⟩ :=
  claim6_polling_error.2.1 _ _ timeoutMs 0 0 "socket hang up"
    (by norm_num [timeoutMs]) rfl

/-- C10: a status response with no job records at all — the `jobs` array
missing or empty — classifies as still-pending: the loop sleeps for the
interval and issues the next query rather than finishing, so a run made
entirely of such responses can only be ended by the deadline. -/
theorem claim10_empty_jobs_pending :
    (∀ onUrl : String → GenOutcome,
        pollStep onUrl (.respond ⟨none⟩) = .pending ∧
        pollStep onUrl (.respond ⟨some []⟩) = .pending) ∧
    (∀ (onUrl : String → GenOutcome) (env : Nat → PollEvent) (T t q : Nat),
        t < T → (env q = .respond ⟨none⟩ ∨ env q = .respond ⟨some []⟩) →
        pollLoop onUrl env T t q = pollLoop onUrl env T (t + pollIntervalMs) (q + 1)) ∧
    (∀ (onUrl : String → GenOutcome) (env : Nat → PollEvent) (T : Nat),
        (∀ n, env n = .respond ⟨none⟩ ∨ env n = .respond ⟨some []⟩) →
        (pollLoop onUrl env T 0 0).outcome = .timedOut) := by
  refine ⟨fun _ => ⟨rfl, rfl⟩, ?_, ?_⟩
  · intro onUrl env T t q hT he
    refine pollLoop_pending onUrl env T t q hT ?_
    rcases he with h | h <;> rw [h] <;> rfl
  · intro onUrl env T h
    refine pollLoop_allPending_timedOut onUrl env ?_ T 0 0
    intro n
    rcases h n with hn | hn <;> rw [hn] <;> rfl

/-- Witness for C10 at a concrete all-empty environment. -/
theorem claim10_empty_jobs_pending_witness :
    (pollLoop (persistOnUrl fun u => .ok u) (fun _ => .respond ⟨none⟩) 5000 0 0).outcome
      = .timedOut :=
  claim10_empty_jobs_pending.2.2 _ _ 5000 (fun _ => Or.inl rfl)

/-- Counterexample to C7: the schema declares `prompt: z.string()` with no
non-emptiness constraint, so the empty prompt passes validation (with all
defaults applied) and the operation proceeds to submission — a network call
is made. -/
theorem claim7_empty_prompt_counterexample :
    validateGenerateImageInput ⟨some "", none, none, none, none, none, none, none, none⟩
      = .ok ⟨"", none, .eulerA, 20, 7, 512, 768, none, 2⟩ ∧
    (handleGenerateImage ⟨some "", none, none, none, none, none, none, none, none⟩
        (.raise "network unreachable" none) (fun _ => scheduledEvent)
        (fun u => .ok u)).submitCalls = 1 := by
  constructor
  · rfl
  · rfl

/-- C7 as amended: validation applies the documented defaults; a missing
prompt is rejected; whenever validation accepts, every numeric field is the
caller's value (or the default) unchanged — never clamped — and lies within
its documented range (so any out-of-range or non-multiple-of-8 value forces
rejection); and a validation failure means the callback never runs: zero
submission calls and zero status queries.  The empty prompt, however, is
accepted (the schema has no non-emptiness check). -/
theorem claim7_validation_amended :
    (∀ p : String,
        validateGenerateImageInput ⟨some p, none, none, none, none, none, none, none, none⟩
          = .ok ⟨p, none, .eulerA, 20, 7, 512, 768, none, 2⟩) ∧
    (validateGenerateImageInput ⟨none, none, none, none, none, none, none, none, none⟩
        = .error "prompt: Required") ∧
    (∀ (raw : RawInput) (ps : GenerateImageParams),
        validateGenerateImageInput raw = .ok ps →
        raw.prompt = some ps.prompt ∧
        ps.steps = raw.steps.getD 20 ∧
        ps.cfgScale = raw.cfgScale.getD 7 ∧
        ps.width = raw.width.getD 512 ∧
        ps.height = raw.height.getD 768 ∧
        ps.clipSkip = raw.clipSkip.getD 2 ∧
        1 ≤ ps.steps ∧ ps.steps ≤ 100 ∧
        1 ≤ ps.cfgScale ∧ ps.cfgScale ≤ 30 ∧
        64 ≤ ps.width ∧ ps.width ≤ 1024 ∧ ps.width % 8 = 0 ∧
        64 ≤ ps.height ∧ ps.height ≤ 1024 ∧ ps.height % 8 = 0 ∧
        1 ≤ ps.clipSkip ∧ ps.clipSkip ≤ 10) ∧
    (∀ (raw : RawInput) (submit : SubmitEvent) (env : Nat → PollEvent)
        (download : String → Except String String),
        exceptOk (validateGenerateImageInput raw) = false →
        (handleGenerateImage raw submit env download).submitCalls = 0 ∧
        (handleGenerateImage raw submit env download).pollCalls = 0) := by
  refine ⟨fun p => rfl, rfl, ?_, ?_⟩
  · intro raw ps h
    unfold validateGenerateImageInput at h
    cases hp : raw.prompt with
    | none => rw [hp] at h; exact absurd h (by simp)
    | some p =>
      rw [hp] at h
      split at h
      · exact absurd h (by simp)
      · rename_i tok hmatch
        split at h
        · exact absurd h (by simp)
        · split at h
          · exact absurd h (by simp)
          · split at h
            · exact absurd h (by simp)
            · split at h
              · exact absurd h (by simp)
              · split at h
                · exact absurd h (by simp)
                · rename_i hsteps hcfg hwidth hheight hclip
                  rw [not_not] at hsteps hcfg hwidth hheight hclip
                  injection h with h
                  subst h
                  exact ⟨hmatch, rfl, rfl, rfl, rfl, rfl, hsteps.1, hsteps.2,
                    hcfg.1, hcfg.2, hwidth.1, hwidth.2.1, hwidth.2.2,
                    hheight.1, hheight.2.1, hheight.2.2, hclip.1, hclip.2⟩
  · intro raw submit env download hval
    cases hv : validateGenerateImageInput raw with
    | ok ps => rw [hv] at hval; exact absurd hval (by simp [exceptOk])
    | error e => exact ⟨by simp [handleGenerateImage, hv], by simp [handleGenerateImage, hv]⟩

/-- Witness for C7's amended theorem at a concrete rejected request
(width 100 is not a multiple of 8): no submission and no polling occur. -/
theorem claim7_validation_amended_witness :
    (handleGenerateImage ⟨some "cat", none, none, none, none, some 100, none, none, none⟩
        (.raise "m" none) (fun _ => scheduledEvent) (fun u => .ok u)).submitCalls = 0 ∧
    (handleGenerateImage ⟨some "cat", none, none, none, none, some 100, none, none, none⟩
        (.raise "m" none) (fun _ => scheduledEvent) (fun u => .ok u)).pollCalls = 0 :=
  claim7_validation_amended.2.2.2 _ _ _ _ rfl

/-- Creating with `recursive: true` — the call the source makes — never
fails, whatever the current state of the file system. -/
theorem mkdirFs_true_ok (d : String) (fs : FsState) :
    ∃ fs', mkdirFs true d fs = .ok fs' := by
  unfold mkdirFs
  split
  · exact ⟨fs, by simp⟩
  · exact ⟨_, rfl⟩

/-- One step of an in-flight `ensureDirectoryExists` call never moves it
into the raised state. -/
theorem ensureStep_no_raise (d : String) (fs : FsState) (p : EnsurePhase)
    (h : raised p = false) : raised (ensureStep d fs p).2 = false := by
  cases p with
  | start =>
    show raised (if d ∈ fs.dirs then (fs, .finished none) else (fs, .needMkdir)).2 = false
    split <;> rfl
  | needMkdir =>
    obtain ⟨fs', hfs⟩ := mkdirFs_true_ok d fs
    show raised (match mkdirFs true d fs with
      | .ok fs' => (fs', EnsurePhase.finished none)
      | .error e => (fs, EnsurePhase.finished (some e))).2 = false
    rw [hfs]
    rfl
  | finished e => exact h

/-- Under any interleaving, two concurrent `ensureDirectoryExists` calls for
the same path both stay clear of the raised state. -/
theorem runEnsurePair_no_raise (d : String) :
    ∀ (sched : List Bool) (fs : FsState) (p1 p2 : EnsurePhase),
      raised p1 = false → raised p2 = false →
      raised (runEnsurePair d sched (fs, p1, p2)).2.1 = false ∧
      raised (runEnsurePair d sched (fs, p1, p2)).2.2 = false := by
  intro sched
  induction sched with
  | nil => exact fun fs p1 p2 h1 h2 => ⟨h1, h2⟩
  | cons b rest ih =>
    intro fs p1 p2 h1 h2
    cases b with
    | false =>
      simp only [runEnsurePair, Bool.false_eq_true, if_false]
      exact ih _ _ _ h1 (ensureStep_no_raise d fs p2 h2)
    | true =>
      simp only [runEnsurePair, if_true]
      exact ih _ _ _ (ensureStep_no_raise d fs p1 h1) h2

/-- C8: the directory-ensure step is idempotent — for an existing directory
it is a no-op success, it never raises in any state, and two concurrent
ensures of the same path never raise under any interleaving (because the
source passes `recursive: true` to `mkdir`); and materialized filenames are
collision-free — distinct UUIDs give distinct local paths, so two
materializations of the same remote content land in two distinct files. -/
theorem claim8_materialization_safety :
    (∀ (d : String) (fs : FsState), d ∈ fs.dirs → ensureDirectoryExists d fs = .ok fs) ∧
    (∀ (d : String) (fs : FsState), ∃ fs', ensureDirectoryExists d fs = .ok fs') ∧
    (∀ (d : String) (sched : List Bool) (fs : FsState),
        raised (runEnsurePair d sched (fs, .start, .start)).2.1 = false ∧
        raised (runEnsurePair d sched (fs, .start, .start)).2.2 = false) ∧
    (∀ dir u1 u2 : String, u1 ≠ u2 → savedImagePath dir u1 ≠ savedImagePath dir u2) := by
  refine ⟨?_, ?_, ?_, ?_⟩
  · intro d fs h
    simp [ensureDirectoryExists, h]
  · intro d fs
    unfold ensureDirectoryExists
    split
    · exact ⟨fs, rfl⟩
    · exact mkdirFs_true_ok d fs
  · intro d sched fs
    exact runEnsurePair_no_raise d sched fs .start .start rfl rfl
  · intro dir u1 u2 hne heq
    apply hne
    have hd : (savedImagePath dir u1).data = (savedImagePath dir u2).data := by rw [heq]
    simp only [savedImagePath, pathJoin, imageFilename, String.data_append,
      List.append_assoc] at hd
    have h1 := List.append_cancel_left hd
    have h2 := List.append_cancel_left h1
    have h3 := List.append_cancel_left h2
    have h4 : u1.data ++ ".png".data = u2.data ++ ".png".data := h3
    exact String.ext (List.append_cancel_right h4)

/-- Witness for C8 at a concrete state and interleaving. -/
theorem claim8_materialization_safety_witness :
    ensureDirectoryExists "/out" ⟨["/out"]⟩ = .ok ⟨["/out"]⟩ ∧
    (raised (runEnsurePair "/out" [true, false, true, false] (⟨[]⟩, .start, .start)).2.1
        = false ∧
      raised (runEnsurePair "/out" [true, false, true, false] (⟨[]⟩, .start, .start)).2.2
        = false) ∧
    savedImagePath "/out" "aaaa" ≠ savedImagePath "/out" "bbbb" :=
  ⟨claim8_materialization_safety.1 "/out" ⟨["/out"]⟩ (by simp),
   claim8_materialization_safety.2.2.1 "/out" [true, false, true, false] ⟨[]⟩,
   claim8_materialization_safety.2.2.2 "/out" "aaaa" "bbbb" (by decide)⟩

/-- Counterexample to C9: in the pass-through revision the success output is
the sentence `Image generated: <url>`, not a `{remoteUrl: string}` value —
for the concrete completed job below, the operation's final text is that
sentence, which is not the spec's remote-URL shape for any string. -/
theorem claim9_output_shape_counterexample :
    generateImagePassthrough (.respond ⟨some "tok"⟩)
        (envOfList [completedEvent "https://x/img.png"] scheduledEvent)
      = ⟨.completedRemote "https://x/img.png", 1, 0⟩ ∧
    finalResult (.completedRemote "https://x/img.png")
      = ⟨"Image generated: https://x/img.png", false⟩ ∧
    ¬ ∃ s : String, "Image generated: https://x/img.png" = specRemoteUrlResultText s := by
  refine ⟨?_, rfl, ?_⟩
  · show runGenerate GenOutcome.completedRemote (.respond ⟨some "tok"⟩) _ = _
    rw [runGenerate]
    simp only [if_neg (by decide : ¬ ("tok" = ""))]
    rw [pollLoop_finish _ _ _ 0 0 _ (by norm_num [timeoutMs])
      (pollStep_completedEvent _ "https://x/img.png" (by decide))]
  · rintro ⟨s, hs⟩
    have h1 : ("Image generated: https://x/img.png" : String).data.head? = some 'I' := by
      decide
    have h2 : (specRemoteUrlResultText s).data.head? = some '\x7b' := by
      simp only [specRemoteUrlResultText, String.data_append, List.append_assoc]
      rfl
    rw [hs, h2] at h1
    exact absurd (Option.some.inj h1) (by decide)

/-- C9 as amended: the persisting revision's success output is the JSON text
`{"path": localPath}`; the pass-through revision's success output is the
text `Image generated: <url>`, carrying the remote reference verbatim but
not shaped as a `{remoteUrl: string}` value.  Which form is produced is
fixed by the revision (the persisting revision always downloads), not by a
per-call destination option. -/
theorem claim9_output_shape_amended :
    ∀ (url tok p : String) (download : String → Except String String) (d : PollEvent),
      url ≠ "" → tok ≠ "" → download url = .ok p →
      finalResult ((generateImage (.respond ⟨some tok⟩)
          (envOfList [completedEvent url] d) download).outcome)
        = ⟨"\x7b\"path\":" ++ jsonString p ++ "\x7d", false⟩ ∧
      finalResult ((generateImagePassthrough (.respond ⟨some tok⟩)
          (envOfList [completedEvent url] d)).outcome)
        = ⟨"Image generated: " ++ url, false⟩ := by
  intro url tok p download d hurl htok hdl
  have hrun1 : generateImage (.respond ⟨some tok⟩)
      (envOfList [completedEvent url] d) download = ⟨.completed p, 1, 0⟩ := by
    show runGenerate (persistOnUrl download) (.respond ⟨some tok⟩) _ = _
    rw [runGenerate]
    simp only [if_neg htok]
    rw [pollLoop_finish _ _ _ 0 0 _ (by norm_num [timeoutMs])
      (pollStep_completedEvent _ url hurl)]
    simp [persistOnUrl, hdl]
  have hrun2 : generateImagePassthrough (.respond ⟨some tok⟩)
      (envOfList [completedEvent url] d) = ⟨.completedRemote url, 1, 0⟩ := by
    show runGenerate GenOutcome.completedRemote (.respond ⟨some tok⟩) _ = _
    rw [runGenerate]
    simp only [if_neg htok]
    rw [pollLoop_finish _ _ _ 0 0 _ (by norm_num [timeoutMs])
      (pollStep_completedEvent _ url hurl)]
  rw [hrun1, hrun2]
  exact ⟨rfl, rfl⟩

/-- Witness for C9's amended theorem at a concrete completed job. -/
theorem claim9_output_shape_amended_witness :
    finalResult ((generateImage (.respond ⟨some "tok"⟩)
        (envOfList [completedEvent "https://x/img.png"] scheduledEvent)
        (fun u => .ok ("/out/" ++ u))).outcome)
      = ⟨"\x7b\"path\":" ++ jsonString "/out/https://x/img.png" ++ "\x7d", false⟩ ∧
    finalResult ((generateImagePassthrough (.respond ⟨some "tok"⟩)
        (envOfList [completedEvent "https://x/img.png"] scheduledEvent)).outcome)
      = ⟨"Image generated: " ++ "https://x/img.png", false⟩ :=
  claim9_output_shape_amended "https://x/img.png" "tok" "/out/https://x/img.png"
    (fun u => .ok ("/out/" ++ u)) scheduledEvent (by decide) (by decide) rfl

end CivitaiMcp
